import Mathlib

/-
Shallow embedding of the csv-health-tracker validation engine
(src/v2-modular/validation.py, class CSVValidator), together with the
exception taxonomy it raises (src/v2-modular/exceptions.py).

Modelling conventions:
- A pandas DataFrame is a `DataFrame`: an explicit row count `nrows`
  (Python `len(self.df)`) and an ordered list of columns, each with a
  name, an inferred dtype tag and its list of cells.
- Cell values in an object column are strings, numbers or NaN; `Cell.null`
  models NaN/None, `isNA` models `pd.isna`.
- Column names are strings, or positional integers when pandas assigned
  default names (`ColName.idx`), so `isinstance(col, int)` is `isIntName`.
- The filesystem facts `Path.exists()` / `Path.is_file()` and the
  pathlib-computed `Path.suffix` are fields of `PathInfo`; `pd.read_csv`'s
  outcome is passed to `load_csv` as an `Except String DataFrame`.
- Logging: every method returns the list of log events it emits, as
  (level, structured message) pairs, alongside its result; a raised
  exception is the `Except.error` branch of the result.
- Percentages are exact rationals (`Rat`), sidestepping float rounding;
  threshold comparisons in the source are plain `>` on numbers.
-/

namespace CSVHealthTracker

/-- Column names as pandas holds them: a string header, or the positional
integer placeholder pandas assigns when the file has no header row. -/
inductive ColName where
  | str (s : String)
  | idx (n : Nat)
deriving DecidableEq, Repr

/-- Inferred dtype tag of a column; `object` is the pandas dtype of text
columns, the others cover the non-text dtypes `select_dtypes` skips. -/
inductive Dtype where
  | object
  | numeric
  | boolean
  | temporal
deriving DecidableEq, Repr

/-- Cell value: a string, a number, or a missing value (NaN/None). -/
inductive Cell where
  | str (s : String)
  | num (q : Rat)
  | null
deriving DecidableEq, Repr

/-- Mirrors `pd.isna` on a single cell. -/
def isNA : Cell → Bool
  | Cell.null => true
  | _ => false

structure Column where
  name : ColName
  dtype : Dtype
  cells : List Cell
deriving DecidableEq, Repr

/-- A loaded table: `nrows` is `len(self.df)`; columns are ordered and
aligned by row index (well-formed tables have `cells.length = nrows` in
every column). -/
structure DataFrame where
  nrows : Nat
  columns : List Column
deriving DecidableEq, Repr

/-- Every column of a pandas frame has exactly `nrows` cells. -/
def DataFrame.WF (df : DataFrame) : Prop :=
  ∀ c ∈ df.columns, c.cells.length = df.nrows

/-- The three thresholds the engine reads from `config['validation']`. -/
structure Config where
  max_duplicate_pct : Rat
  max_missing_pct : Rat
  whitespace_threshold_pct : Rat
deriving DecidableEq, Repr

/-- Filesystem/pathlib facts about the input path string: whether the path
resolves to an existing entry, whether that entry is a regular file, and
the pathlib `suffix` of the final component. -/
structure PathInfo where
  path : String
  fsExists : Bool
  isFile : Bool
  suffix : String
deriving DecidableEq, Repr

/-- Log levels of the injected logger. -/
inductive LogLevel where
  | debug
  | info
  | warning
  | error
deriving DecidableEq, Repr

/-- Structured form of each log message the validator emits; arguments
carry the data interpolated into the corresponding f-string. -/
inductive LogMsg where
  | validatingPath (p : String)
  | fileNotFound (p : String)
  | pathIsDir (p : String)
  | notCSV (p : String) (suffix : String)
  | pathOk
  | loadingCSV (name : String)
  | loadedCSV (rows cols : Nat)
  | loadFailed (msg : String)
  | checkingHeaders
  | noHeaders
  | headersOk
  | checkingDuplicates
  | foundDuplicates (count : Nat) (pct : Rat)
  | dupFailed (pct threshold : Rat)
  | dupPassed (pct threshold : Rat)
  | checkingEmpty
  | emptyColsFound (names : List ColName)
  | emptyRowsFound (count : Nat)
  | emptyOk
  | checkingMissing
  | colMissing (name : ColName) (pct : Rat)
  | missingFailed (violations : List (ColName × Rat)) (threshold : Rat)
  | missingPassed (threshold : Rat)
  | checkingWhitespace
  | colWhitespace (name : ColName) (pct : Rat)
  | wsFailed (violations : List (ColName × Rat)) (threshold : Rat)
  | wsPassed (threshold : Rat)
  | gatheringInfo
  | banner
deriving DecidableEq, Repr

abbrev LogEntry := LogLevel × LogMsg

/-- The exception taxonomy of exceptions.py, restricted to the kinds the
validator raises; each constructor carries the data its message holds. -/
inductive VError where
  | notFound (path : String)
  | readError (msg : String)
  | invalidFormat (path : String) (suffix : String)
  | duplicateRowsExceeded (pct threshold : Rat)
  | missingValuesExceeded (violations : List (ColName × Rat)) (threshold : Rat)
  | whitespacePollutionExceeded (violations : List (ColName × Rat)) (threshold : Rat)
deriving DecidableEq, Repr

instance instDecidableEqExcept {ε α : Type} [DecidableEq ε] [DecidableEq α] :
    DecidableEq (Except ε α) := fun x y =>
  match x, y with
  | Except.ok a, Except.ok b =>
      if h : a = b then Decidable.isTrue (by rw [h]) else Decidable.isFalse (by simp [h])
  | Except.error a, Except.error b =>
      if h : a = b then Decidable.isTrue (by rw [h]) else Decidable.isFalse (by simp [h])
  | Except.ok _, Except.error _ => Decidable.isFalse (by simp)
  | Except.error _, Except.ok _ => Decidable.isFalse (by simp)

/-- Mirrors pathlib `Path(p).name`: the final path component, i.e. the
characters after the last slash. -/
def pathName (p : String) : String :=
  String.mk ((p.data.reverse.takeWhile (fun c => !(c == '/'))).reverse)

/-- Mirrors Python `str.lower()` character by character. -/
def lowerStr (s : String) : String := String.mk (s.data.map Char.toLower)

/-- CSVValidator.validate_file_path. Note the source's directory check
(validation.py line 90) only logs an error and does not raise. -/
def validate_file_path (p : PathInfo) : List LogEntry × Except VError PathInfo :=
  let l0 : LogEntry := (LogLevel.info, LogMsg.validatingPath p.path)
  if ¬ p.fsExists then
    ([l0, (LogLevel.error, LogMsg.fileNotFound p.path)], Except.error (VError.notFound p.path))
  else
    let dirLogs : List LogEntry :=
      if ¬ p.isFile then [(LogLevel.error, LogMsg.pathIsDir p.path)] else []
    if ¬ (lowerStr p.suffix) = ".csv" then
      ([l0] ++ dirLogs ++ [(LogLevel.error, LogMsg.notCSV p.path p.suffix)],
        Except.error (VError.invalidFormat p.path p.suffix))
    else
      ([l0] ++ dirLogs ++ [(LogLevel.info, LogMsg.pathOk)], Except.ok p)

/-- CSVValidator.load_csv; the outcome of `pd.read_csv` is the `parsed`
argument, any parse exception being wrapped into `readError`. -/
def load_csv (p : PathInfo) (parsed : Except String DataFrame) :
    List LogEntry × Except VError DataFrame :=
  let l0 : LogEntry := (LogLevel.info, LogMsg.loadingCSV (pathName p.path))
  match parsed with
  | Except.ok df =>
      ([l0, (LogLevel.info, LogMsg.loadedCSV df.nrows df.columns.length)], Except.ok df)
  | Except.error m =>
      ([l0, (LogLevel.error, LogMsg.loadFailed m)], Except.error (VError.readError m))

/-- Mirrors pandas `duplicated()`: one flag per element, true when the
element already occurred earlier; `seen` accumulates the prefix. -/
def dupFlags {α : Type} [DecidableEq α] : List α → List α → List Bool
  | _, [] => []
  | seen, x :: xs => seen.contains x :: dupFlags (x :: seen) xs

/-- Mirrors `xs[xs.duplicated()]`: the elements marked by `dupFlags`. -/
def markedDups {α : Type} [DecidableEq α] (xs : List α) : List α :=
  ((xs.zip (dupFlags [] xs)).filter (fun p => p.2)).map (fun p => p.1)

/-- Mirrors `isinstance(col, int)` on a column name. -/
def isIntName : ColName → Bool
  | ColName.idx _ => true
  | ColName.str _ => false

/-- Result dict of check_column_headers. The source initialises the key
'has_headers' to True and later assigns False to the misspelled key
'has_headdrs' (validation.py line 163), so the dict can end up holding
both; `has_headdrs` is `none` when that key was never created. -/
structure HeaderResult where
  has_headers : Bool
  has_headdrs : Option Bool
  column_names : List ColName
  duplicate_columns : List ColName
deriving DecidableEq, Repr

/-- CSVValidator.check_column_headers. -/
def check_column_headers (df : DataFrame) : List LogEntry × HeaderResult :=
  let names := df.columns.map (fun c => c.name)
  let has_default_names := names.all isIntName
  let dups := markedDups names
  let r : HeaderResult :=
    { has_headers := true
      has_headdrs := if has_default_names then some false else none
      column_names := names
      duplicate_columns := dups }
  let warn : List LogEntry :=
    if has_default_names then [(LogLevel.warning, LogMsg.noHeaders)] else []
  let pass : List LogEntry :=
    if r.has_headers && dups.isEmpty then [(LogLevel.info, LogMsg.headersOk)] else []
  ([(LogLevel.info, LogMsg.checkingHeaders)] ++ warn ++ pass, r)

/-- Row `i` of the frame: the i-th cell of every column in column order. -/
def rowAt (df : DataFrame) (i : Nat) : List Cell :=
  df.columns.map (fun c => c.cells.getD i Cell.null)

/-- All rows of the frame, in order. -/
def rowsOf (df : DataFrame) : List (List Cell) :=
  (List.range df.nrows).map (rowAt df)

/-- Mirrors `self.df.duplicated().sum()`. -/
def num_duplicates (df : DataFrame) : Nat :=
  (dupFlags [] (rowsOf df)).count true

/-- Mirrors validation.py line 191. -/
def duplicate_pct (df : DataFrame) : Rat :=
  if 0 < df.nrows then (num_duplicates df : Rat) / (df.nrows : Rat) * 100 else 0

/-- CSVValidator.check_duplicate_rows. -/
def check_duplicate_rows (cfg : Config) (df : DataFrame) :
    List LogEntry × Except VError (Nat × Rat) :=
  let n := num_duplicates df
  let pct := duplicate_pct df
  let l0 : List LogEntry :=
    [(LogLevel.info, LogMsg.checkingDuplicates), (LogLevel.info, LogMsg.foundDuplicates n pct)]
  if cfg.max_duplicate_pct < pct then
    (l0 ++ [(LogLevel.error, LogMsg.dupFailed pct cfg.max_duplicate_pct)],
      Except.error (VError.duplicateRowsExceeded pct cfg.max_duplicate_pct))
  else
    (l0 ++ [(LogLevel.info, LogMsg.dupPassed pct cfg.max_duplicate_pct)],
      Except.ok (n, pct))

structure EmptyDataResult where
  empty_columns : List ColName
  empty_row_count : Nat
deriving DecidableEq, Repr

/-- CSVValidator.check_empty_rows_columns. -/
def check_empty_rows_columns (df : DataFrame) : List LogEntry × EmptyDataResult :=
  let emptyCols := (df.columns.filter (fun c => c.cells.all isNA)).map (fun c => c.name)
  let emptyRowCount := (List.range df.nrows).countP (fun i => (rowAt df i).all isNA)
  let warn1 : List LogEntry :=
    if ¬ emptyCols.isEmpty then [(LogLevel.warning, LogMsg.emptyColsFound emptyCols)] else []
  let warn2 : List LogEntry :=
    if 0 < emptyRowCount then [(LogLevel.warning, LogMsg.emptyRowsFound emptyRowCount)] else []
  let pass : List LogEntry :=
    if emptyCols.isEmpty && emptyRowCount == 0 then [(LogLevel.info, LogMsg.emptyOk)] else []
  ([(LogLevel.info, LogMsg.checkingEmpty)] ++ warn1 ++ warn2 ++ pass,
    { empty_columns := emptyCols, empty_row_count := emptyRowCount })

/-- Mirrors validation.py line 266 to 267 for one column. -/
def missing_pct (df : DataFrame) (c : Column) : Rat :=
  if 0 < df.nrows then (c.cells.countP isNA : Rat) / (df.nrows : Rat) * 100 else 0

/-- The `missing_by_column` mapping built by the loop over all columns. -/
def missing_by_column (df : DataFrame) : List (ColName × Rat) :=
  df.columns.map (fun c => (c.name, missing_pct df c))

/-- CSVValidator.check_missing_values. -/
def check_missing_values (cfg : Config) (df : DataFrame) :
    List LogEntry × Except VError (List (ColName × Rat)) :=
  let entries := missing_by_column df
  let dbg := (entries.filter (fun p => decide (0 < p.2))).map
    (fun p => ((LogLevel.debug, LogMsg.colMissing p.1 p.2) : LogEntry))
  let violations := entries.filter (fun p => decide (cfg.max_missing_pct < p.2))
  let l0 : List LogEntry := [(LogLevel.info, LogMsg.checkingMissing)] ++ dbg
  if violations.isEmpty then
    (l0 ++ [(LogLevel.info, LogMsg.missingPassed cfg.max_missing_pct)], Except.ok entries)
  else
    (l0 ++ [(LogLevel.error, LogMsg.missingFailed violations cfg.max_missing_pct)],
      Except.error (VError.missingValuesExceeded violations cfg.max_missing_pct))

/-- Drops the leading whitespace characters of a character list. -/
def dropLeadingWS : List Char → List Char
  | [] => []
  | c :: cs => if c.isWhitespace then dropLeadingWS cs else c :: cs

/-- Mirrors Python `str.strip()`: remove leading and trailing whitespace. -/
def stripStr (s : String) : String :=
  String.mk ((dropLeadingWS ((dropLeadingWS s.data).reverse)).reverse)

/-- Mirrors the lambda at validation.py line 312:
`isinstance(x, str) and x != x.strip()`. -/
def ws_cell_polluted : Cell → Bool
  | Cell.str s => decide (¬ s = stripStr s)
  | _ => false

/-- Mirrors validation.py line 314 to 315 for one column. -/
def ws_pct (df : DataFrame) (c : Column) : Rat :=
  if 0 < df.nrows then (c.cells.countP ws_cell_polluted : Rat) / (df.nrows : Rat) * 100 else 0

/-- The `whitespace_by_column` mapping: only columns whose dtype is
`object` are visited (`select_dtypes(include='object')`). -/
def whitespace_by_column (df : DataFrame) : List (ColName × Rat) :=
  (df.columns.filter (fun c => c.dtype == Dtype.object)).map (fun c => (c.name, ws_pct df c))

/-- CSVValidator.check_whitespace_pollution. Note the source logs the
failure at warning level (validation.py line 328), unlike the error-level
logs of the duplicate and missing-value gates. -/
def check_whitespace_pollution (cfg : Config) (df : DataFrame) :
    List LogEntry × Except VError (List (ColName × Rat)) :=
  let entries := whitespace_by_column df
  let dbg := (entries.filter (fun p => decide (0 < p.2))).map
    (fun p => ((LogLevel.debug, LogMsg.colWhitespace p.1 p.2) : LogEntry))
  let violations := entries.filter (fun p => decide (cfg.whitespace_threshold_pct < p.2))
  let l0 : List LogEntry := [(LogLevel.info, LogMsg.checkingWhitespace)] ++ dbg
  if violations.isEmpty then
    (l0 ++ [(LogLevel.info, LogMsg.wsPassed cfg.whitespace_threshold_pct)], Except.ok entries)
  else
    (l0 ++ [(LogLevel.warning, LogMsg.wsFailed violations cfg.whitespace_threshold_pct)],
      Except.error (VError.whitespacePollutionExceeded violations cfg.whitespace_threshold_pct))

structure BasicInfo where
  filename : String
  shape : Nat × Nat
  columns : List ColName
  dtypes : List (ColName × Dtype)
deriving DecidableEq, Repr

/-- The guard of the conditional expression at validation.py line 350 is
the bound method object `self.validate_file_path` itself, and a bound
method object is always truthy in Python. -/
def validate_file_path_truthy : Bool := true

/-- CSVValidator.get_basic_info (its memory_usage field, a process-level
measurement, is outside the table model and omitted). -/
def get_basic_info (p : PathInfo) (df : DataFrame) : List LogEntry × BasicInfo :=
  ([(LogLevel.info, LogMsg.gatheringInfo)],
    { filename := if validate_file_path_truthy then pathName p.path else "unknown"
      shape := (df.nrows, df.columns.length)
      columns := df.columns.map (fun c => c.name)
      dtypes := df.columns.map (fun c => (c.name, c.dtype)) })

/-- The `results` dict validate_all returns on full success. -/
structure ValidationResult where
  basic_info : BasicInfo
  headers : HeaderResult
  empty_data : EmptyDataResult
  duplicates : Nat × Rat
  missing_values : List (ColName × Rat)
  whitespace : List (ColName × Rat)
deriving DecidableEq, Repr

/-- CSVValidator.validate_all: path gate, load, the three never-failing
info checks, then the three gating checks in order; each `except ...:
raise` re-raises the exception unchanged. -/
def validate_all (cfg : Config) (p : PathInfo) (parsed : Except String DataFrame) :
    List LogEntry × Except VError ValidationResult :=
  let l0 : List LogEntry := [(LogLevel.info, LogMsg.banner)]
  match validate_file_path p with
  | (lg1, Except.error e) => (l0 ++ lg1, Except.error e)
  | (lg1, Except.ok vp) =>
    match load_csv vp parsed with
    | (lg2, Except.error e) => (l0 ++ lg1 ++ lg2, Except.error e)
    | (lg2, Except.ok df) =>
      let rB := get_basic_info vp df
      let rH := check_column_headers df
      let rE := check_empty_rows_columns df
      let lg3 := l0 ++ lg1 ++ lg2 ++ rB.1 ++ rH.1 ++ rE.1
      match check_duplicate_rows cfg df with
      | (lgD, Except.error e) => (lg3 ++ lgD, Except.error e)
      | (lgD, Except.ok dup) =>
        match check_missing_values cfg df with
        | (lgM, Except.error e) => (lg3 ++ lgD ++ lgM, Except.error e)
        | (lgM, Except.ok mv) =>
          match check_whitespace_pollution cfg df with
          | (lgW, Except.error e) => (lg3 ++ lgD ++ lgM ++ lgW, Except.error e)
          | (lgW, Except.ok ws) =>
            (lg3 ++ lgD ++ lgM ++ lgW ++ [(LogLevel.info, LogMsg.banner)],
              Except.ok { basic_info := rB.2, headers := rH.2, empty_data := rE.2,
                          duplicates := dup, missing_values := mv, whitespace := ws })

/-! Concrete tables and configurations used as test vectors. -/

/-- Text column A with four clean string values. -/
def cA : Column :=
  { name := ColName.str "A", dtype := Dtype.object,
    cells := [Cell.str "p", Cell.str "q", Cell.str "r", Cell.str "s"] }

/-- Numeric column B with two of four values missing. -/
def cB : Column :=
  { name := ColName.str "B", dtype := Dtype.numeric,
    cells := [Cell.num 1, Cell.null, Cell.num 2, Cell.null] }

/-- A 4-row table with 0 percent duplicates, B missing 50 percent. -/
def dfm : DataFrame := { nrows := 4, columns := [cA, cB] }

/-- A 4-row table with one exact row repeated twice (rows x, x, y, z). -/
def dfDup4 : DataFrame :=
  { nrows := 4,
    columns := [{ name := ColName.str "a", dtype := Dtype.object,
                  cells := [Cell.str "x", Cell.str "x", Cell.str "y", Cell.str "z"] }] }

/-- A 3-row table whose rows are all identical. -/
def dfRep : DataFrame :=
  { nrows := 3,
    columns := [{ name := ColName.str "v", dtype := Dtype.object,
                  cells := [Cell.str "u", Cell.str "u", Cell.str "u"] }] }

/-! Properties of the duplicated-row marking. -/

lemma dupFlags_append {α : Type} [DecidableEq α] (seen xs ys : List α) :
    dupFlags seen (xs ++ ys) = dupFlags seen xs ++ dupFlags (xs.reverse ++ seen) ys := by
  induction xs generalizing seen with
  | nil => simp [dupFlags]
  | cons x xs ih =>
      simp only [List.cons_append, dupFlags, List.append_eq]
      rw [ih (x :: seen)]
      simp [List.append_assoc]

lemma contains_reverse_map_range {α : Type} [DecidableEq α] (f : Nat → α) (n : Nat) :
    (((List.range n).map f).reverse).contains (f n) =
      decide (∃ j, j < n ∧ f j = f n) := by
  rw [show (((List.range n).map f).reverse).contains (f n) =
      (((List.range n).map f).reverse).elem (f n) from rfl, List.elem_eq_mem]
  exact decide_eq_decide.mpr (by simp [List.mem_reverse, List.mem_map, List.mem_range])

lemma count_dupFlags_range {α : Type} [DecidableEq α] (f : Nat → α) :
    ∀ n : Nat, (dupFlags [] ((List.range n).map f)).count true =
      (List.range n).countP (fun i => decide (∃ j, j < i ∧ f j = f i))
  | 0 => by simp [dupFlags]
  | (n+1) => by
      rw [List.range_succ, List.map_append, dupFlags_append, List.count_append,
        List.countP_append, count_dupFlags_range f n]
      congr 1
      simp only [List.map_cons, List.map_nil, List.append_nil, dupFlags,
        contains_reverse_map_range f n]
      simp [List.count_cons, List.countP_cons, dupFlags]

lemma dupFlags_replicate_of_mem {α : Type} [DecidableEq α] (r : α) :
    ∀ (m : Nat) (seen : List α), seen.contains r = true →
      dupFlags seen (List.replicate m r) = List.replicate m true
  | 0, _, _ => rfl
  | (m+1), seen, h => by
      simp only [List.replicate_succ, dupFlags, h]
      rw [dupFlags_replicate_of_mem r m (r :: seen) (by simp)]

lemma count_dupFlags_replicate {α : Type} [DecidableEq α] (r : α) (n : Nat) (h : 0 < n) :
    (dupFlags [] (List.replicate n r)).count true = n - 1 := by
  obtain ⟨m, rfl⟩ : ∃ m, n = m + 1 := ⟨n - 1, (Nat.succ_pred_eq_of_pos h).symm⟩
  simp only [List.replicate_succ, dupFlags]
  rw [dupFlags_replicate_of_mem r m [r] (by simp)]
  simp [List.count_cons]

lemma rowsOf_length (df : DataFrame) : (rowsOf df).length = df.nrows := by
  simp [rowsOf]

/-- C4: the duplicate count equals the number of rows that repeat an
earlier row (the first occurrence is not counted; a row repeated k times
contributes k minus 1), and for a table of n identical rows the count is
n minus 1 with duplicate_pct = (n-1)/n*100. -/
theorem claim_C4_duplicate_count :
    (∀ df : DataFrame, num_duplicates df =
        (List.range df.nrows).countP (fun i => decide (∃ j, j < i ∧ rowAt df j = rowAt df i)))
    ∧ (∀ (df : DataFrame) (n : Nat) (r : List Cell), 0 < n →
        rowsOf df = List.replicate n r →
        num_duplicates df = n - 1 ∧ duplicate_pct df = ((n : Rat) - 1) / (n : Rat) * 100) := by
  constructor
  · intro df
    show (dupFlags [] (rowsOf df)).count true = _
    rw [show rowsOf df = (List.range df.nrows).map (rowAt df) from rfl]
    exact count_dupFlags_range (rowAt df) df.nrows
  · intro df n r hn hrep
    have hlen : df.nrows = n := by
      have h := congrArg List.length hrep
      simpa [rowsOf_length] using h
    have hcount : num_duplicates df = n - 1 := by
      show (dupFlags [] (rowsOf df)).count true = n - 1
      rw [hrep]
      exact count_dupFlags_replicate r n hn
    refine ⟨hcount, ?_⟩
    rw [duplicate_pct, hcount, hlen, if_pos hn, Nat.cast_sub hn]
    norm_num

/-- Witness for C4 at the 3-row all-identical table. -/
theorem claim_C4_witness :
    (0 < 3 ∧ rowsOf dfRep = List.replicate 3 (rowAt dfRep 0))
    ∧ num_duplicates dfRep = 2
    ∧ duplicate_pct dfRep = ((3 : Rat) - 1) / (3 : Rat) * 100 :=
  have h := claim_C4_duplicate_count.2 dfRep 3 (rowAt dfRep 0) (by decide) (by decide)
  ⟨⟨by decide, by decide⟩, h.1, h.2⟩

/-- C7: for a table with zero rows every percentage computation yields 0;
the guards at validation.py lines 191, 267 and 315 replace the division
by zero with 0. -/
theorem claim_C7_zero_rows (df : DataFrame) (h : df.nrows = 0) :
    duplicate_pct df = 0
    ∧ (∀ c ∈ df.columns, missing_pct df c = 0)
    ∧ (∀ c ∈ df.columns, ws_pct df c = 0) := by
  refine ⟨?_, ?_, ?_⟩
  · rw [duplicate_pct, h]
    simp
  · intro c _
    rw [missing_pct, h]
    simp
  · intro c _
    rw [ws_pct, h]
    simp

/-- A zero-row table that still has a (header-only) column. -/
def dfEmpty : DataFrame :=
  { nrows := 0,
    columns := [{ name := ColName.str "h", dtype := Dtype.object, cells := [] }] }

/-- Witness for C7 at a zero-row single-column table. -/
theorem claim_C7_witness :
    dfEmpty.nrows = 0
    ∧ duplicate_pct dfEmpty = 0
    ∧ missing_pct dfEmpty ⟨ColName.str "h", Dtype.object, []⟩ = 0
    ∧ ws_pct dfEmpty ⟨ColName.str "h", Dtype.object, []⟩ = 0 :=
  have h := claim_C7_zero_rows dfEmpty rfl
  ⟨rfl, h.1, h.2.1 _ (by simp [dfEmpty]), h.2.2 _ (by simp [dfEmpty])⟩

/-! The duplicate-row gate (claim C5). -/

lemma check_duplicate_rows_snd (cfg : Config) (df : DataFrame) :
    (check_duplicate_rows cfg df).2 =
      if cfg.max_duplicate_pct < duplicate_pct df then
        Except.error (VError.duplicateRowsExceeded (duplicate_pct df) cfg.max_duplicate_pct)
      else
        Except.ok (num_duplicates df, duplicate_pct df) := by
  unfold check_duplicate_rows
  by_cases h : cfg.max_duplicate_pct < duplicate_pct df <;> simp [h]

/-- C5: the duplicate gate raises DuplicateRowsExceeded carrying the
computed percentage and the threshold exactly when the percentage is
strictly above the threshold, and otherwise returns the pair
(duplicate_count, duplicate_pct); the 4-row table with one repeated row
passes threshold 50 with (1, 25). -/
theorem claim_C5_duplicate_gate :
    (∀ (cfg : Config) (df : DataFrame),
      ((check_duplicate_rows cfg df).2 =
          Except.error (VError.duplicateRowsExceeded (duplicate_pct df) cfg.max_duplicate_pct)
        ↔ cfg.max_duplicate_pct < duplicate_pct df)
      ∧ (duplicate_pct df ≤ cfg.max_duplicate_pct →
        (check_duplicate_rows cfg df).2 = Except.ok (num_duplicates df, duplicate_pct df)))
    ∧ (check_duplicate_rows ⟨50, 60, 60⟩ dfDup4).2 = Except.ok (1, 25) := by
  constructor
  · intro cfg df
    by_cases h : cfg.max_duplicate_pct < duplicate_pct df
    · exact ⟨iff_of_true (by rw [check_duplicate_rows_snd]; simp [h]) h,
        fun hle => absurd h (not_lt.mpr hle)⟩
    · exact ⟨iff_of_false (by rw [check_duplicate_rows_snd]; simp [h]) h,
        fun _ => by rw [check_duplicate_rows_snd]; simp [h]⟩
  · have h1 : num_duplicates dfDup4 = 1 := by decide
    have h2 : duplicate_pct dfDup4 = 25 := by
      simp only [duplicate_pct, h1]
      norm_num [dfDup4]
    rw [check_duplicate_rows_snd, h1, h2]
    norm_num

/-- Witness for C5 applying its pass branch at the 4-row table. -/
theorem claim_C5_witness :
    duplicate_pct dfDup4 ≤ (50 : Rat)
    ∧ (check_duplicate_rows ⟨50, 60, 60⟩ dfDup4).2 =
        Except.ok (num_duplicates dfDup4, duplicate_pct dfDup4) := by
  have h1 : num_duplicates dfDup4 = 1 := by decide
  have h2 : duplicate_pct dfDup4 = 25 := by
    simp only [duplicate_pct, h1]
    norm_num [dfDup4]
  have hle : duplicate_pct dfDup4 ≤ (50 : Rat) := by rw [h2]; norm_num
  exact ⟨hle, (claim_C5_duplicate_gate.1 ⟨50, 60, 60⟩ dfDup4).2 hle⟩

/-! The missing-value gate (claim C3). -/

lemma check_missing_values_snd (cfg : Config) (df : DataFrame) :
    (check_missing_values cfg df).2 =
      if ((missing_by_column df).filter (fun p => decide (cfg.max_missing_pct < p.2))).isEmpty then
        Except.ok (missing_by_column df)
      else
        Except.error (VError.missingValuesExceeded
          ((missing_by_column df).filter (fun p => decide (cfg.max_missing_pct < p.2)))
          cfg.max_missing_pct) := by
  unfold check_missing_values
  by_cases h : ((missing_by_column df).filter
      (fun p => decide (cfg.max_missing_pct < p.2))).isEmpty = true <;> simp [h]

lemma missing_violations_empty_iff (cfg : Config) (df : DataFrame) :
    ((missing_by_column df).filter
        (fun p => decide (cfg.max_missing_pct < p.2))).isEmpty = true
      ↔ ∀ c ∈ df.columns, missing_pct df c ≤ cfg.max_missing_pct := by
  rw [List.isEmpty_iff, List.filter_eq_nil_iff]
  constructor
  · intro h c hc
    have hm : (c.name, missing_pct df c) ∈ missing_by_column df :=
      List.mem_map.mpr ⟨c, hc, rfl⟩
    simpa using h _ hm
  · intro h p hp
    obtain ⟨c, hc, rfl⟩ := List.mem_map.mp hp
    simpa using h c hc

/-- C3: the missing-value check computes the percentage of every column,
raises MissingValuesExceeded exactly when some column is strictly above
the threshold, the raised payload lists every offending column with its
percentage, and on pass the full per-column mapping (0 percent entries
included) is returned. -/
theorem claim_C3_missing_exhaustive (cfg : Config) (df : DataFrame) :
    ((check_missing_values cfg df).2 = Except.ok (missing_by_column df) ↔
      ∀ c ∈ df.columns, missing_pct df c ≤ cfg.max_missing_pct)
    ∧ ((∃ c ∈ df.columns, cfg.max_missing_pct < missing_pct df c) →
      (check_missing_values cfg df).2 = Except.error (VError.missingValuesExceeded
        ((missing_by_column df).filter (fun p => decide (cfg.max_missing_pct < p.2)))
        cfg.max_missing_pct))
    ∧ (∀ v t, (check_missing_values cfg df).2 =
          Except.error (VError.missingValuesExceeded v t) →
        t = cfg.max_missing_pct ∧
        ∀ nm q, (nm, q) ∈ missing_by_column df → cfg.max_missing_pct < q → (nm, q) ∈ v) := by
  by_cases h : ((missing_by_column df).filter
      (fun p => decide (cfg.max_missing_pct < p.2))).isEmpty = true
  · refine ⟨iff_of_true (by rw [check_missing_values_snd]; simp [h])
      ((missing_violations_empty_iff cfg df).mp h), ?_, ?_⟩
    · rintro ⟨c, hc, hlt⟩
      exact absurd hlt (not_lt.mpr (((missing_violations_empty_iff cfg df).mp h) c hc))
    · intro v t hvt
      rw [check_missing_values_snd] at hvt
      simp [h] at hvt
  · have hex : ¬ ∀ c ∈ df.columns, missing_pct df c ≤ cfg.max_missing_pct :=
      fun hall => h ((missing_violations_empty_iff cfg df).mpr hall)
    refine ⟨iff_of_false (by rw [check_missing_values_snd]; simp [h]) hex,
      fun _ => by rw [check_missing_values_snd]; simp [h], ?_⟩
    intro v t hvt
    rw [check_missing_values_snd] at hvt
    rw [if_neg (by simpa using h)] at hvt
    obtain ⟨hv, ht⟩ := VError.missingValuesExceeded.inj (Except.error.inj hvt)
    refine ⟨ht.symm, ?_⟩
    intro nm q hmem hlt
    rw [← hv]
    exact List.mem_filter.mpr ⟨hmem, by simpa using hlt⟩

/-- Witness for C3: column B of the 4-row table is 50 percent missing,
above the threshold 10, so the check raises naming exactly the violators. -/
theorem claim_C3_witness :
    (∃ c ∈ dfm.columns, (10 : Rat) < missing_pct dfm c)
    ∧ (check_missing_values ⟨50, 10, 10⟩ dfm).2 =
        Except.error (VError.missingValuesExceeded
          ((missing_by_column dfm).filter (fun p => decide ((10 : Rat) < p.2)))
          10) := by
  have hB : missing_pct dfm cB = 50 := by
    simp only [missing_pct]
    norm_num [dfm, cB, isNA]
  have hex : ∃ c ∈ dfm.columns, (10 : Rat) < missing_pct dfm c :=
    ⟨cB, by simp [dfm], by rw [hB]; norm_num⟩
  exact ⟨hex, (claim_C3_missing_exhaustive ⟨50, 10, 10⟩ dfm).2.1 hex⟩

/-! The whitespace check inspects text columns only (claim C6). -/

/-- C6: a column appears in the whitespace mapping exactly when its dtype
is the text (object) dtype, regardless of its values, and a cell counts
as polluted exactly when it is a string that differs from its
leading/trailing-stripped form; non-string cells are never counted. -/
theorem claim_C6_whitespace_text_only (df : DataFrame) :
    (∀ nm : ColName,
      (∃ q, (nm, q) ∈ whitespace_by_column df) ↔
        ∃ c ∈ df.columns, c.name = nm ∧ c.dtype = Dtype.object)
    ∧ (∀ x : Cell, ws_cell_polluted x = true ↔ ∃ s, x = Cell.str s ∧ ¬ s = stripStr s) := by
  constructor
  · intro nm
    constructor
    · rintro ⟨q, hq⟩
      obtain ⟨c, hcf, heq⟩ := List.mem_map.mp hq
      obtain ⟨hc, hdt⟩ := List.mem_filter.mp hcf
      refine ⟨c, hc, ?_, by simpa using hdt⟩
      simpa using congrArg Prod.fst heq
    · rintro ⟨c, hc, hnm, hdt⟩
      exact ⟨ws_pct df c,
        List.mem_map.mpr ⟨c, List.mem_filter.mpr ⟨hc, by simp [hdt]⟩, by simp [hnm]⟩⟩
  · intro x
    cases x with
    | str s => simp [ws_cell_polluted]
    | num q => simp [ws_cell_polluted]
    | null => simp [ws_cell_polluted]

/-- Witness for C6: the text column A of the 4-row table appears in the
whitespace mapping, and a leading-space string cell counts as polluted. -/
theorem claim_C6_witness :
    (∃ q, (ColName.str "A", q) ∈ whitespace_by_column dfm)
    ∧ ws_cell_polluted (Cell.str " a") = true := by
  constructor
  · exact ((claim_C6_whitespace_text_only dfm).1 (ColName.str "A")).mpr
      ⟨cA, by simp [dfm], by simp [cA], by simp [cA]⟩
  · exact ((claim_C6_whitespace_text_only dfm).2 (Cell.str " a")).mpr
      ⟨" a", rfl, by decide⟩

/-! Header check and path gate at concrete inputs (claims C1 and C2). -/

/-- A table whose two column names are both positional integer
placeholders, as pandas assigns when the CSV has no header row. -/
def dfIntCols : DataFrame :=
  { nrows := 1,
    columns := [{ name := ColName.idx 0, dtype := Dtype.object, cells := [Cell.str "v"] },
                { name := ColName.idx 1, dtype := Dtype.numeric, cells := [Cell.num 3] }] }

/-- C1: on a table whose column names are all integer placeholders, the
returned record still has has_headers = true, because the assignment at
validation.py line 163 writes the misspelled key 'has_headdrs' instead
of overwriting 'has_headers'. -/
theorem claim_C1_header_flag_stays_true :
    ((dfIntCols.columns.map (fun c => c.name)).all isIntName = true)
    ∧ (check_column_headers dfIntCols).2.has_headers = true
    ∧ (check_column_headers dfIntCols).2.has_headdrs = some false := by decide

/-- An existing directory named data.csv. -/
def dirCsv : PathInfo :=
  { path := "data.csv", fsExists := true, isFile := false, suffix := ".csv" }

/-- C2: an existing directory named data.csv passes the path gate with
Except.ok: the directory branch at validation.py lines 90 to 91 logs an
error but is missing the raise, so no InvalidCSVFormatError occurs. -/
theorem claim_C2_directory_not_rejected :
    (dirCsv.fsExists = true ∧ dirCsv.isFile = false)
    ∧ (validate_file_path dirCsv).2 = Except.ok dirCsv
    ∧ (LogLevel.error, LogMsg.pathIsDir "data.csv") ∈ (validate_file_path dirCsv).1 := by decide

/-! The whitespace gate and the log levels of the three gating checks
(claim C9). -/

lemma check_whitespace_pollution_snd (cfg : Config) (df : DataFrame) :
    (check_whitespace_pollution cfg df).2 =
      if ((whitespace_by_column df).filter
          (fun p => decide (cfg.whitespace_threshold_pct < p.2))).isEmpty then
        Except.ok (whitespace_by_column df)
      else
        Except.error (VError.whitespacePollutionExceeded
          ((whitespace_by_column df).filter
            (fun p => decide (cfg.whitespace_threshold_pct < p.2)))
          cfg.whitespace_threshold_pct) := by
  unfold check_whitespace_pollution
  by_cases h : ((whitespace_by_column df).filter
      (fun p => decide (cfg.whitespace_threshold_pct < p.2))).isEmpty = true <;> simp [h]

lemma ws_violations_empty_iff (cfg : Config) (df : DataFrame) :
    ((whitespace_by_column df).filter
        (fun p => decide (cfg.whitespace_threshold_pct < p.2))).isEmpty = true
      ↔ ∀ p ∈ whitespace_by_column df, p.2 ≤ cfg.whitespace_threshold_pct := by
  rw [List.isEmpty_iff, List.filter_eq_nil_iff]
  simp [not_lt]

/-- C9 (amended): the duplicate and missing-value gates log their failure
at error level with the same percentage and threshold the exception
carries, but the whitespace gate logs its failure at warning level and
emits no error-level message at all. -/
theorem claim_C9_gate_log_levels :
    (∀ (cfg : Config) (df : DataFrame) (pct thr : Rat),
      (check_duplicate_rows cfg df).2 =
          Except.error (VError.duplicateRowsExceeded pct thr) →
        (LogLevel.error, LogMsg.dupFailed pct thr) ∈ (check_duplicate_rows cfg df).1)
    ∧ (∀ (cfg : Config) (df : DataFrame) (v : List (ColName × Rat)) (thr : Rat),
      (check_missing_values cfg df).2 =
          Except.error (VError.missingValuesExceeded v thr) →
        (LogLevel.error, LogMsg.missingFailed v thr) ∈ (check_missing_values cfg df).1)
    ∧ (∀ (cfg : Config) (df : DataFrame) (v : List (ColName × Rat)) (thr : Rat),
      (check_whitespace_pollution cfg df).2 =
          Except.error (VError.whitespacePollutionExceeded v thr) →
        (LogLevel.warning, LogMsg.wsFailed v thr) ∈ (check_whitespace_pollution cfg df).1
        ∧ ∀ m : LogMsg, ¬ (LogLevel.error, m) ∈ (check_whitespace_pollution cfg df).1) := by
  refine ⟨?_, ?_, ?_⟩
  · intro cfg df pct thr hvt
    by_cases h : cfg.max_duplicate_pct < duplicate_pct df
    · rw [check_duplicate_rows_snd, if_pos h] at hvt
      obtain ⟨h1, h2⟩ := VError.duplicateRowsExceeded.inj (Except.error.inj hvt)
      subst h1
      subst h2
      unfold check_duplicate_rows
      simp [h]
    · rw [check_duplicate_rows_snd, if_neg h] at hvt
      exact absurd hvt (by simp)
  · intro cfg df v thr hvt
    by_cases h : ((missing_by_column df).filter
        (fun p => decide (cfg.max_missing_pct < p.2))).isEmpty = true
    · rw [check_missing_values_snd, if_pos h] at hvt
      exact absurd hvt (by simp)
    · rw [check_missing_values_snd, if_neg (by simpa using h)] at hvt
      obtain ⟨h1, h2⟩ := VError.missingValuesExceeded.inj (Except.error.inj hvt)
      subst h1
      subst h2
      unfold check_missing_values
      simp [h]
  · intro cfg df v thr hvt
    by_cases h : ((whitespace_by_column df).filter
        (fun p => decide (cfg.whitespace_threshold_pct < p.2))).isEmpty = true
    · rw [check_whitespace_pollution_snd, if_pos h] at hvt
      exact absurd hvt (by simp)
    · rw [check_whitespace_pollution_snd, if_neg (by simpa using h)] at hvt
      obtain ⟨h1, h2⟩ := VError.whitespacePollutionExceeded.inj (Except.error.inj hvt)
      subst h1
      subst h2
      constructor
      · unfold check_whitespace_pollution
        simp [h]
      · intro m hm
        unfold check_whitespace_pollution at hm
        simp only [h, Bool.false_eq_true, if_false, List.mem_cons, List.mem_append,
          List.mem_map, List.mem_singleton] at hm
        rcases hm with h0 | ⟨⟨q, hq, he⟩ | h0⟩ <;> simp_all

/-- The text column of the whitespace counterexample table: two of its
four string cells carry leading or trailing whitespace. -/
def cW : Column :=
  { name := ColName.str "A", dtype := Dtype.object,
    cells := [Cell.str "a", Cell.str " a", Cell.str "a ", Cell.str "a"] }

/-- A 4-row table that is 50 percent whitespace-polluted. -/
def dfW : DataFrame := { nrows := 4, columns := [cW] }

lemma ws_pct_dfW : ws_pct dfW cW = 50 := by
  have hcount : cW.cells.countP ws_cell_polluted = 2 := by decide
  simp only [ws_pct, hcount]
  norm_num [dfW]

lemma whitespace_by_column_dfW :
    whitespace_by_column dfW = [(ColName.str "A", ws_pct dfW cW)] := by
  unfold whitespace_by_column
  rw [show dfW.columns = [cW] from rfl,
    show List.filter (fun c => c.dtype == Dtype.object) [cW] = [cW] from by decide]
  rfl

lemma check_whitespace_pollution_dfW :
    check_whitespace_pollution ⟨60, 60, 10⟩ dfW =
      ([(LogLevel.info, LogMsg.checkingWhitespace),
        (LogLevel.debug, LogMsg.colWhitespace (ColName.str "A") 50),
        (LogLevel.warning, LogMsg.wsFailed [(ColName.str "A", 50)] 10)],
       Except.error (VError.whitespacePollutionExceeded [(ColName.str "A", 50)] 10)) := by
  have h2 : whitespace_by_column dfW = [(ColName.str "A", (50 : Rat))] := by
    rw [whitespace_by_column_dfW, ws_pct_dfW]
  unfold check_whitespace_pollution
  rw [h2]
  norm_num [List.filter_cons, List.filter_nil]

lemma ws_dfW_fails :
    (check_whitespace_pollution ⟨60, 60, 10⟩ dfW).2 =
      Except.error (VError.whitespacePollutionExceeded [(ColName.str "A", 50)] 10) := by
  rw [check_whitespace_pollution_dfW]

/-- C9 counterexample: on the 50 percent polluted table with threshold 10
the whitespace gate raises WhitespacePollutionExceeded, yet its log
trail contains no error-level entry at all: the failure is logged at
warning level (validation.py line 328). -/
theorem claim_C9_counterexample :
    (check_whitespace_pollution ⟨60, 60, 10⟩ dfW).2 =
        Except.error (VError.whitespacePollutionExceeded [(ColName.str "A", 50)] 10)
    ∧ (check_whitespace_pollution ⟨60, 60, 10⟩ dfW).1 =
        [(LogLevel.info, LogMsg.checkingWhitespace),
         (LogLevel.debug, LogMsg.colWhitespace (ColName.str "A") 50),
         (LogLevel.warning, LogMsg.wsFailed [(ColName.str "A", 50)] 10)]
    ∧ ((check_whitespace_pollution ⟨60, 60, 10⟩ dfW).1.all
        (fun e => !(e.1 == LogLevel.error))) = true := by
  rw [check_whitespace_pollution_dfW]
  refine ⟨rfl, rfl, by decide⟩

lemma dup_dfDup4_fails :
    (check_duplicate_rows ⟨10, 60, 60⟩ dfDup4).2 =
      Except.error (VError.duplicateRowsExceeded 25 10) := by
  have h1 : num_duplicates dfDup4 = 1 := by decide
  have h2 : duplicate_pct dfDup4 = 25 := by
    simp only [duplicate_pct, h1]
    norm_num [dfDup4]
  rw [check_duplicate_rows_snd, h2]
  norm_num

/-- Witness for C9 applying the amended theorem to a failing duplicate
check and a failing whitespace check. -/
theorem claim_C9_witness :
    ((LogLevel.error, LogMsg.dupFailed 25 10) ∈ (check_duplicate_rows ⟨10, 60, 60⟩ dfDup4).1)
    ∧ ((LogLevel.warning, LogMsg.wsFailed [(ColName.str "A", 50)] 10)
        ∈ (check_whitespace_pollution ⟨60, 60, 10⟩ dfW).1) :=
  ⟨claim_C9_gate_log_levels.1 ⟨10, 60, 60⟩ dfDup4 25 10 dup_dfDup4_fails,
    (claim_C9_gate_log_levels.2.2 ⟨60, 60, 10⟩ dfW [(ColName.str "A", 50)] 10 ws_dfW_fails).1⟩

/-! The orchestrator pipeline (claims C8 and C10). -/

lemma validate_all_spec (cfg : Config) (p : PathInfo) (parsed : Except String DataFrame) :
    (∀ e, (validate_file_path p).2 = Except.error e →
      (validate_all cfg p parsed).2 = Except.error e)
    ∧ (∀ vp m, (validate_file_path p).2 = Except.ok vp → parsed = Except.error m →
      (validate_all cfg p parsed).2 = Except.error (VError.readError m))
    ∧ (∀ vp df e, (validate_file_path p).2 = Except.ok vp → parsed = Except.ok df →
      (check_duplicate_rows cfg df).2 = Except.error e →
      (validate_all cfg p parsed).2 = Except.error e)
    ∧ (∀ vp df dup e, (validate_file_path p).2 = Except.ok vp → parsed = Except.ok df →
      (check_duplicate_rows cfg df).2 = Except.ok dup →
      (check_missing_values cfg df).2 = Except.error e →
      (validate_all cfg p parsed).2 = Except.error e)
    ∧ (∀ vp df dup mv e, (validate_file_path p).2 = Except.ok vp → parsed = Except.ok df →
      (check_duplicate_rows cfg df).2 = Except.ok dup →
      (check_missing_values cfg df).2 = Except.ok mv →
      (check_whitespace_pollution cfg df).2 = Except.error e →
      (validate_all cfg p parsed).2 = Except.error e)
    ∧ (∀ vp df dup mv ws, (validate_file_path p).2 = Except.ok vp → parsed = Except.ok df →
      (check_duplicate_rows cfg df).2 = Except.ok dup →
      (check_missing_values cfg df).2 = Except.ok mv →
      (check_whitespace_pollution cfg df).2 = Except.ok ws →
      (validate_all cfg p parsed).2 = Except.ok
        { basic_info := (get_basic_info vp df).2,
          headers := (check_column_headers df).2,
          empty_data := (check_empty_rows_columns df).2,
          duplicates := dup, missing_values := mv, whitespace := ws }) := by
  refine ⟨?_, ?_, ?_, ?_, ?_, ?_⟩
  · intro e he
    unfold validate_all
    rcases hv : validate_file_path p with ⟨lg1, r1⟩
    rw [hv] at he
    simp at he
    subst he
    simp
  · intro vp m hg hp
    unfold validate_all
    rcases hv : validate_file_path p with ⟨lg1, r1⟩
    rw [hv] at hg
    simp at hg
    subst hg
    subst hp
    simp [load_csv]
  · intro vp df e hg hp hd
    unfold validate_all
    rcases hv : validate_file_path p with ⟨lg1, r1⟩
    rw [hv] at hg
    simp at hg
    subst hg
    subst hp
    rcases hdp : check_duplicate_rows cfg df with ⟨lgD, rD⟩
    rw [hdp] at hd
    simp at hd
    subst hd
    simp [load_csv, hdp]
  · intro vp df dup e hg hp hd hm
    unfold validate_all
    rcases hv : validate_file_path p with ⟨lg1, r1⟩
    rw [hv] at hg
    simp at hg
    subst hg
    subst hp
    rcases hdp : check_duplicate_rows cfg df with ⟨lgD, rD⟩
    rw [hdp] at hd
    simp at hd
    subst hd
    rcases hmp : check_missing_values cfg df with ⟨lgM, rM⟩
    rw [hmp] at hm
    simp at hm
    subst hm
    simp [load_csv, hdp, hmp]
  · intro vp df dup mv e hg hp hd hm hw
    unfold validate_all
    rcases hv : validate_file_path p with ⟨lg1, r1⟩
    rw [hv] at hg
    simp at hg
    subst hg
    subst hp
    rcases hdp : check_duplicate_rows cfg df with ⟨lgD, rD⟩
    rw [hdp] at hd
    simp at hd
    subst hd
    rcases hmp : check_missing_values cfg df with ⟨lgM, rM⟩
    rw [hmp] at hm
    simp at hm
    subst hm
    rcases hwp : check_whitespace_pollution cfg df with ⟨lgW, rW⟩
    rw [hwp] at hw
    simp at hw
    subst hw
    simp [load_csv, hdp, hmp, hwp]
  · intro vp df dup mv ws hg hp hd hm hw
    unfold validate_all
    rcases hv : validate_file_path p with ⟨lg1, r1⟩
    rw [hv] at hg
    simp at hg
    subst hg
    subst hp
    rcases hdp : check_duplicate_rows cfg df with ⟨lgD, rD⟩
    rw [hdp] at hd
    simp at hd
    subst hd
    rcases hmp : check_missing_values cfg df with ⟨lgM, rM⟩
    rw [hmp] at hm
    simp at hm
    subst hm
    rcases hwp : check_whitespace_pollution cfg df with ⟨lgW, rW⟩
    rw [hwp] at hw
    simp at hw
    subst hw
    simp [load_csv, hdp, hmp, hwp]

/-- C8: validate_all runs gate, load, the three never-failing info
checks, then duplicates, missing values and whitespace in that order;
any gating failure propagates unchanged and no partial result is
returned, while full success returns the aggregate with all six
findings. -/
theorem claim_C8_pipeline (cfg : Config) (p : PathInfo) (parsed : Except String DataFrame) :
    (∀ e, (validate_file_path p).2 = Except.error e →
      (validate_all cfg p parsed).2 = Except.error e)
    ∧ (∀ vp m, (validate_file_path p).2 = Except.ok vp → parsed = Except.error m →
      (validate_all cfg p parsed).2 = Except.error (VError.readError m))
    ∧ (∀ vp df e, (validate_file_path p).2 = Except.ok vp → parsed = Except.ok df →
      (check_duplicate_rows cfg df).2 = Except.error e →
      (validate_all cfg p parsed).2 = Except.error e)
    ∧ (∀ vp df dup e, (validate_file_path p).2 = Except.ok vp → parsed = Except.ok df →
      (check_duplicate_rows cfg df).2 = Except.ok dup →
      (check_missing_values cfg df).2 = Except.error e →
      (validate_all cfg p parsed).2 = Except.error e)
    ∧ (∀ vp df dup mv e, (validate_file_path p).2 = Except.ok vp → parsed = Except.ok df →
      (check_duplicate_rows cfg df).2 = Except.ok dup →
      (check_missing_values cfg df).2 = Except.ok mv →
      (check_whitespace_pollution cfg df).2 = Except.error e →
      (validate_all cfg p parsed).2 = Except.error e)
    ∧ (∀ vp df dup mv ws, (validate_file_path p).2 = Except.ok vp → parsed = Except.ok df →
      (check_duplicate_rows cfg df).2 = Except.ok dup →
      (check_missing_values cfg df).2 = Except.ok mv →
      (check_whitespace_pollution cfg df).2 = Except.ok ws →
      (validate_all cfg p parsed).2 = Except.ok
        { basic_info := (get_basic_info vp df).2,
          headers := (check_column_headers df).2,
          empty_data := (check_empty_rows_columns df).2,
          duplicates := dup, missing_values := mv, whitespace := ws }) :=
  validate_all_spec cfg p parsed

/-! A concrete fully-successful run, shared by the C8 and C10 witnesses. -/

/-- Thresholds generous enough for the table dfm to pass every gate. -/
def cfgOK : Config := { max_duplicate_pct := 50, max_missing_pct := 60, whitespace_threshold_pct := 60 }

/-- An existing regular file a/test.csv. -/
def pGood : PathInfo := { path := "a/test.csv", fsExists := true, isFile := true, suffix := ".csv" }

lemma gate_pGood : (validate_file_path pGood).2 = Except.ok pGood := by decide

lemma missing_pct_dfm_cA : missing_pct dfm cA = 0 := by
  simp only [missing_pct]
  norm_num [dfm, cA, isNA]

lemma missing_pct_dfm_cB : missing_pct dfm cB = 50 := by
  simp only [missing_pct]
  norm_num [dfm, cB, isNA]

lemma missing_by_column_dfm :
    missing_by_column dfm = [(ColName.str "A", 0), (ColName.str "B", 50)] := by
  unfold missing_by_column
  rw [show dfm.columns = [cA, cB] from rfl]
  simp only [List.map_cons, List.map_nil, missing_pct_dfm_cA, missing_pct_dfm_cB]
  rfl

lemma dup_dfm_ok : (check_duplicate_rows cfgOK dfm).2 = Except.ok (0, 0) := by
  have h1 : num_duplicates dfm = 0 := by decide
  have h2 : duplicate_pct dfm = 0 := by
    simp only [duplicate_pct, h1]
    norm_num [dfm]
  rw [check_duplicate_rows_snd, h1, h2]
  norm_num [cfgOK]

lemma missing_dfm_ok : (check_missing_values cfgOK dfm).2 = Except.ok (missing_by_column dfm) := by
  have hcond : ((missing_by_column dfm).filter
      (fun p => decide (cfgOK.max_missing_pct < p.2))).isEmpty = true := by
    rw [missing_by_column_dfm]
    norm_num [cfgOK, List.filter_cons, List.filter_nil]
  rw [check_missing_values_snd, if_pos hcond]

lemma ws_pct_dfm_cA : ws_pct dfm cA = 0 := by
  have hc : cA.cells.countP ws_cell_polluted = 0 := by decide
  simp only [ws_pct, hc]
  norm_num [dfm]

lemma whitespace_by_column_dfm :
    whitespace_by_column dfm = [(ColName.str "A", 0)] := by
  unfold whitespace_by_column
  rw [show dfm.columns = [cA, cB] from rfl,
    show List.filter (fun c => c.dtype == Dtype.object) [cA, cB] = [cA] from by decide]
  simp only [List.map_cons, List.map_nil, ws_pct_dfm_cA]
  rfl

lemma ws_dfm_ok :
    (check_whitespace_pollution cfgOK dfm).2 = Except.ok (whitespace_by_column dfm) := by
  have hcond : ((whitespace_by_column dfm).filter
      (fun p => decide (cfgOK.whitespace_threshold_pct < p.2))).isEmpty = true := by
    rw [whitespace_by_column_dfm]
    norm_num [cfgOK, List.filter_cons, List.filter_nil]
  rw [check_whitespace_pollution_snd, if_pos hcond]

/-- Witness for C8: the full pipeline succeeds on the clean run and
returns the aggregate of all six findings. -/
theorem claim_C8_witness :
    (validate_all cfgOK pGood (Except.ok dfm)).2 = Except.ok
      { basic_info := (get_basic_info pGood dfm).2,
        headers := (check_column_headers dfm).2,
        empty_data := (check_empty_rows_columns dfm).2,
        duplicates := (0, 0),
        missing_values := missing_by_column dfm,
        whitespace := whitespace_by_column dfm } :=
  (claim_C8_pipeline cfgOK pGood (Except.ok dfm)).2.2.2.2.2 pGood dfm (0, 0)
    (missing_by_column dfm) (whitespace_by_column dfm)
    gate_pGood rfl dup_dfm_ok missing_dfm_ok ws_dfm_ok

lemma validate_file_path_ok_eq (p vp : PathInfo)
    (h : (validate_file_path p).2 = Except.ok vp) : vp = p := by
  unfold validate_file_path at h
  by_cases h1 : p.fsExists = true
  · by_cases h2 : lowerStr p.suffix = ".csv"
    · simp [h1, h2] at h
      exact h.symm
    · simp [h1, h2] at h
  · simp [h1] at h

lemma validate_all_ok_basic_info (cfg : Config) (p : PathInfo)
    (parsed : Except String DataFrame) (r : ValidationResult)
    (h : (validate_all cfg p parsed).2 = Except.ok r) :
    ∃ df : DataFrame, r.basic_info = (get_basic_info p df).2 := by
  rcases hv : (validate_file_path p).2 with e | vp
  · rw [(validate_all_spec cfg p parsed).1 e hv] at h
    exact absurd h (by simp)
  · have hvp := validate_file_path_ok_eq p vp hv
    subst hvp
    cases parsed with
    | error m =>
        rw [(validate_all_spec cfg vp (Except.error m)).2.1 vp m hv rfl] at h
        exact absurd h (by simp)
    | ok df =>
        rcases hdd : (check_duplicate_rows cfg df).2 with e | dup
        · rw [(validate_all_spec cfg vp (Except.ok df)).2.2.1 vp df e hv rfl hdd] at h
          exact absurd h (by simp)
        · rcases hmm : (check_missing_values cfg df).2 with e | mv
          · rw [(validate_all_spec cfg vp (Except.ok df)).2.2.2.1 vp df dup e hv rfl hdd hmm] at h
            exact absurd h (by simp)
          · rcases hww : (check_whitespace_pollution cfg df).2 with e | ws
            · rw [(validate_all_spec cfg vp (Except.ok df)).2.2.2.2.1
                vp df dup mv e hv rfl hdd hmm hww] at h
              exact absurd h (by simp)
            · rw [(validate_all_spec cfg vp (Except.ok df)).2.2.2.2.2
                vp df dup mv ws hv rfl hdd hmm hww] at h
              exact ⟨df, by rw [← Except.ok.inj h]⟩

/-- C10: the 'unknown' fallback in get_basic_info is unreachable because
the guard is the always-truthy bound method object, so the filename is
always the final name component of the validated path, in particular for
every result a successful validate_all returns. -/
theorem claim_C10_filename :
    (∀ (p : PathInfo) (df : DataFrame),
      (get_basic_info p df).2.filename = pathName p.path)
    ∧ (∀ (cfg : Config) (p : PathInfo) (parsed : Except String DataFrame)
        (r : ValidationResult),
      (validate_all cfg p parsed).2 = Except.ok r →
        r.basic_info.filename = pathName p.path) := by
  constructor
  · intro p df
    rfl
  · intro cfg p parsed r h
    obtain ⟨df, hb⟩ := validate_all_ok_basic_info cfg p parsed r h
    rw [hb]
    rfl

/-- The aggregate result of the clean concrete run. -/
def rGood : ValidationResult :=
  { basic_info := (get_basic_info pGood dfm).2,
    headers := (check_column_headers dfm).2,
    empty_data := (check_empty_rows_columns dfm).2,
    duplicates := (0, 0),
    missing_values := missing_by_column dfm,
    whitespace := whitespace_by_column dfm }

lemma validate_all_dfm_run : (validate_all cfgOK pGood (Except.ok dfm)).2 = Except.ok rGood :=
  (validate_all_spec cfgOK pGood (Except.ok dfm)).2.2.2.2.2 pGood dfm (0, 0)
    (missing_by_column dfm) (whitespace_by_column dfm)
    gate_pGood rfl dup_dfm_ok missing_dfm_ok ws_dfm_ok

/-- Witness for C10: on the clean concrete run the returned filename is
the final component test.csv, never the 'unknown' fallback. -/
theorem claim_C10_witness :
    rGood.basic_info.filename = pathName pGood.path
    ∧ pathName pGood.path = "test.csv" :=
  ⟨claim_C10_filename.2 cfgOK pGood (Except.ok dfm) rGood validate_all_dfm_run, by decide⟩

end CSVHealthTracker
